import Mathlib

/-!
Verification of the luna-app-telemetry repository (drone telemetry ingestion,
fan-out and fallback-cascade subsystem).

The relevant JavaScript/TypeScript functions are shallowly embedded as Lean
definitions: machine numbers become `ℤ`/`ℚ`/`ℕ`, timestamps are epoch
milliseconds (`ℤ`), JavaScript `null`/`undefined` becomes `Option`, and the
JavaScript truthiness rules that the code relies on (`0`, `""`, `null`,
`undefined` are falsy) are modelled explicitly.  Stateful handlers become
pure functions from an explicit state to a new state; timer-driven behaviour
becomes a step relation over small event alphabets.
-/

namespace Luna

/-! ## Status normalization (backend/src/services/mqttService.js, `MqttService._normalizeStatus`) -/

/-- The canonical ten-value status enum (`allowedStatuses` in the source). -/
def allowedStatuses : List String :=
  ["Standby", "Pre-Flight", "Active", "In Flight", "Landing",
   "Delivered", "Returning", "Powered Off", "Maintenance", "Emergency"]

/-- The fixed synonym table (`statusMap` object literal in the source). -/
def statusMap : List (String × String) :=
  [("powered_off", "Powered Off"),
   ("powered off", "Powered Off"),
   ("in_flight", "In Flight"),
   ("in flight", "In Flight"),
   ("pre_flight", "Pre-Flight"),
   ("pre flight", "Pre-Flight"),
   ("returning", "Returning"),
   ("delivered", "Delivered"),
   ("landing", "Landing"),
   ("maintenance", "Maintenance"),
   ("emergency", "Emergency"),
   ("active", "Active"),
   ("standby", "Standby")]

/-- ASCII lower-casing, modelling the JavaScript `String.prototype.toLowerCase`
on the ASCII status vocabulary (character-wise `Char.toLower`). -/
def jsToLower (s : String) : String := String.mk (s.data.map Char.toLower)

/-- Embedding of `MqttService._normalizeStatus`.  The input is `none` when the
inbound payload carries no `status` field (JS `undefined`/`null`); the guard
`if (!status) return 'Standby'` also fires on the empty string, which is falsy
in JavaScript. -/
def normalizeStatus : Option String → String
  | none => "Standby"
  | some s =>
    if s = "" then "Standby"
    else
      let normalized := ((statusMap.lookup (jsToLower s)).getD s)
      if normalized ∈ allowedStatuses then normalized else "Standby"

theorem statusMap_lookup_mem_allowed {k v : String}
    (h : statusMap.lookup k = some v) : v ∈ allowedStatuses := by
  simp only [statusMap, List.lookup] at h
  repeat' split at h
  all_goals simp_all [allowedStatuses]

theorem statusMap_lookup_ne_empty {v : String}
    (h : statusMap.lookup "" = some v) : False := by
  simp [statusMap, List.lookup] at h

/-- C1: the ingestion status normalization matches the inbound status
case-insensitively against the fixed synonym table and returns the mapped
canonical value; every input (including a missing or empty status) whose
mapped-or-raw value is not one of the ten canonical statuses is coerced to
"Standby". -/
theorem normalizeStatus_correct :
    normalizeStatus none = "Standby" ∧
    normalizeStatus (some "") = "Standby" ∧
    (∀ s v, statusMap.lookup (jsToLower s) = some v → normalizeStatus (some s) = v) ∧
    (∀ s, (statusMap.lookup (jsToLower s)).getD s ∉ allowedStatuses →
      normalizeStatus (some s) = "Standby") := by
  refine ⟨rfl, rfl, ?_, ?_⟩
  · intro s v h
    have hs : s ≠ "" := by
      rintro rfl
      exact statusMap_lookup_ne_empty h
    have hv : v ∈ allowedStatuses := statusMap_lookup_mem_allowed h
    simp [normalizeStatus, hs, h, hv]
  · intro s h
    by_cases hs : s = ""
    · subst hs; rfl
    · simp [normalizeStatus, hs, if_neg h]

theorem normalizeStatus_correct_witness :
    normalizeStatus (some "IN_FLIGHT") = "In Flight" ∧
    normalizeStatus (some "warp-speed") = "Standby" :=
  ⟨normalizeStatus_correct.2.2.1 "IN_FLIGHT" "In Flight" (by decide),
   normalizeStatus_correct.2.2.2 "warp-speed" (by decide)⟩

/-! ## Agent Registry (backend/src/models/drone.js) -/

/-- A stored drone document (the `droneSchema` fields the claims mention).
Timestamps are epoch milliseconds. -/
structure DroneRec where
  droneId : String
  name : String
  status : String
  isOnline : Bool
  lastSeen : ℤ
  battery : Option ℚ
  deriving Repr, DecidableEq

/-- The two-minute offline threshold of `droneSchema.methods.updateOnlineStatus`. -/
def offlineThreshold : ℤ := 2 * 60 * 1000

/-- Embedding of `droneSchema.methods.updateOnlineStatus`: recompute the
`isOnline` field from `lastSeen` at time `now`. -/
def updateOnlineStatus (now : ℤ) (d : DroneRec) : DroneRec :=
  { d with isOnline := decide (now - d.lastSeen < offlineThreshold) }

/-- The frontend-compatible projection produced by
`droneSchema.methods.toFrontendFormat`. -/
structure FrontendDrone where
  id : String
  name : String
  lastSeen : ℤ
  status : String
  isOnline : Bool
  battery : Option ℚ
  deriving Repr, DecidableEq

/-- Embedding of `droneSchema.methods.toFrontendFormat`. -/
def toFrontendFormat (d : DroneRec) : FrontendDrone :=
  { id := d.droneId, name := d.name, lastSeen := d.lastSeen,
    status := d.status, isOnline := d.isOnline, battery := d.battery }

/-- Embedding of `droneController.getAllDrones` (also the body of
`WebSocketService.handleSubscribeDrones`): fetch all drones, recompute the
online status of each, and expose the frontend projection. -/
def getAllDrones (now : ℤ) (db : List DroneRec) : List FrontendDrone :=
  db.map (fun d => toFrontendFormat (updateOnlineStatus now d))

/-- Embedding of the `isOnline` computation of the Next.js aggregate drones
route (`$gt: [lastSeen, now - 5 * 60 * 1000]` in the aggregation pipeline ):
the flag is derived from the latest reading timestamp with a FIVE minute
threshold. -/
def aggregateDroneOnline (now lastSeen : ℤ) : Bool :=
  decide (lastSeen > now - 5 * 60 * 1000)

/-- C3 counterexample: for an agent last seen 3 minutes ago (now = 1000000 ms,
lastSeen = 820000 ms) the aggregate drones route exposes `isOnline = true`,
although `(now - lastSeen) < 120000` is false — so not every read operation
derives the online flag with the two-minute threshold. -/
theorem aggregateOnline_neq_twoMinuteRule :
    aggregateDroneOnline 1000000 820000 = true ∧
    decide ((1000000 : ℤ) - 820000 < offlineThreshold) = false := by
  decide

/-- C3 amended: the registry-backed read operations (`getAllDrones`,
`getDroneById`, the fan-out `subscribe_drones` handler) recompute the exposed
online flag as `(now - lastSeen) < 120000 ms` from `lastSeen`, ignoring the
stored `isOnline` field entirely; the Next.js aggregate drones route also
derives the flag from the latest reading timestamp, but with a five-minute
threshold `(now - lastSeen) < 300000 ms`. -/
theorem onlineFlag_recomputed (now : ℤ) (db : List DroneRec) (d : DroneRec)
    (b : Bool) (t : ℤ) :
    ((getAllDrones now db).map FrontendDrone.isOnline
      = db.map (fun d => decide (now - d.lastSeen < offlineThreshold))) ∧
    (updateOnlineStatus now { d with isOnline := b } = updateOnlineStatus now d) ∧
    ((updateOnlineStatus now d).isOnline
      = decide (now - d.lastSeen < offlineThreshold)) ∧
    (aggregateDroneOnline now t = decide (now - t < 5 * 60 * 1000)) := by
  refine ⟨?_, rfl, rfl, ?_⟩
  · simp [getAllDrones, toFrontendFormat, updateOnlineStatus]
  · simp only [aggregateDroneOnline, decide_eq_decide]
    omega

/-! ## Command paths (droneController.sendCommandToDrone and
WebSocketService.handleSendCommand) -/

/-- Embedding of `MqttService.publishToDrone`: when the MQTT client is not
connected nothing is published and `false` is returned; when it is connected
the command is published to the per-agent command topic and `true` is
returned.  The result therefore also states whether a message reached the
ingestion transport. -/
def publishToDrone (mqttConnected : Bool) : Bool := mqttConnected

/-- Outcome of the HTTP command route. -/
inductive HttpCmdResult where
  | notFound
  | offlineRejected
  | commandSent
  | publishFailed
  deriving Repr, DecidableEq

/-- Embedding of `droneController.sendCommandToDrone`.  The second component
records whether a command message was forwarded to the transport. -/
def sendCommandToDrone (now : ℤ) (dbDrone : Option DroneRec)
    (mqttConnected : Bool) : HttpCmdResult × Bool :=
  match dbDrone with
  | none => (.notFound, false)
  | some d =>
    if (updateOnlineStatus now d).isOnline then
      if publishToDrone mqttConnected then (.commandSent, true)
      else (.publishFailed, false)
    else (.offlineRejected, false)

/-- The `command_response` frame sent back by the fan-out channel. -/
structure CommandResponse where
  success : Bool
  droneId : String
  command : String
  message : String
  deriving Repr, DecidableEq

/-- Embedding of `WebSocketService.handleSendCommand`: the handler forwards
the command via `publishToDrone` and replies with a `command_response`; it
performs no lookup of the agent and no online check.  The second component
records whether a command message was forwarded to the transport. -/
def handleSendCommand (mqttConnected : Bool) (droneId command : String) :
    CommandResponse × Bool :=
  let success := publishToDrone mqttConnected
  ({ success := success, droneId := droneId, command := command,
     message := if success then "Command sent successfully"
                else "Failed to send command" }, success)

/-- A registry entry last seen three minutes before time 1000000 ms. -/
def staleDrone : DroneRec :=
  { droneId := "A1", name := "Drone A1", status := "Standby",
    isOnline := true, lastSeen := 820000, battery := none }

/-- C5 counterexample: at now = 1000000 ms the agent `staleDrone` (lastSeen
three minutes in the past) is offline, yet the fan-out channel `send_command`
path forwards the `takeoff` command to the transport (and even reports
success) whenever the MQTT client is connected — so not every command path
rejects commands to offline agents. -/
theorem handleSendCommand_forwards_to_offline :
    (updateOnlineStatus 1000000 staleDrone).isOnline = false ∧
    (handleSendCommand true "A1" "takeoff").2 = true ∧
    (handleSendCommand true "A1" "takeoff").1.success = true := by
  decide

/-- C5 amended: the HTTP command route rejects a command to an agent whose
`lastSeen` is at least 2 minutes in the past synchronously with an explicit
offline error and forwards nothing; the fan-out channel `send_command`
handler, however, performs no online check and forwards the command exactly
when the MQTT transport is connected, regardless of `lastSeen`. -/
theorem sendCommand_offline_paths (now : ℤ) (d : DroneRec) (conn : Bool)
    (id cmd : String) :
    (¬ (now - d.lastSeen < offlineThreshold) →
      sendCommandToDrone now (some d) conn = (.offlineRejected, false)) ∧
    (sendCommandToDrone now none conn = (.notFound, false)) ∧
    ((handleSendCommand conn id cmd).2 = conn) := by
  refine ⟨?_, rfl, rfl⟩
  intro h
  simp [sendCommandToDrone, updateOnlineStatus, h]

theorem sendCommand_offline_paths_witness :
    ¬ ((1000000 : ℤ) - staleDrone.lastSeen < offlineThreshold) ∧
    sendCommandToDrone 1000000 (some staleDrone) true
      = (.offlineRejected, false) :=
  ⟨by decide,
   (sendCommand_offline_paths 1000000 staleDrone true "A1" "takeoff").1
     (by decide)⟩

/-! ## Ingestion adapter (MqttService._processTelemetryData /
_processDroneStatus) and the telemetry store -/

/-- JavaScript truthiness of an optional number: `undefined`/`null` and `0`
are falsy. -/
def truthy : Option ℚ → Bool
  | none => false
  | some x => x != 0

/-- The JavaScript `||` operator on optional numbers: returns the left value
when it is truthy, otherwise the right value. -/
def jsOr (a b : Option ℚ) : Option ℚ := if truthy a then a else b

/-- An inbound reading payload as received on `drones/{id}/data`.  Position
may come flat (`latitude`/`longitude`, or already as `lat`/`lng`) or nested
(`location.latitude`/`location.longitude`); `locLat`/`locLng` model the
optional-chaining results `data.location?.latitude` / `?.longitude`. -/
structure RawPayload where
  battery : Option ℚ := none
  temperature : Option ℚ := none
  humidity : Option ℚ := none
  speed : Option ℚ := none
  altitude : Option ℚ := none
  lat : Option ℚ := none
  lng : Option ℚ := none
  latitude : Option ℚ := none
  longitude : Option ℚ := none
  locLat : Option ℚ := none
  locLng : Option ℚ := none
  status : Option String := none
  name : Option String := none
  deriving Repr, DecidableEq

/-- A stored telemetry document (the `telemetryDataSchema` fields the claims
mention); `locLat`/`locLng` are the `location.latitude`/`location.longitude`
subdocument fields. -/
structure TelemetryRec where
  droneId : String
  timestamp : ℤ
  battery : Option ℚ := none
  temperature : Option ℚ := none
  humidity : Option ℚ := none
  speed : Option ℚ := none
  altitude : Option ℚ := none
  locLat : Option ℚ := none
  locLng : Option ℚ := none
  lat : Option ℚ := none
  lng : Option ℚ := none
  status : String := "Standby"
  deriving Repr, DecidableEq

/-- The document constructed by `MqttService._processTelemetryData` before it
is saved: `location.latitude = data.latitude || data.location?.latitude`,
`lat = data.lat || data.latitude || data.location?.latitude` (similarly for
longitude), and the status is normalized. -/
def mkTelemetryRecord (now : ℤ) (droneId : String) (p : RawPayload) :
    TelemetryRec :=
  { droneId := droneId, timestamp := now,
    battery := p.battery, temperature := p.temperature,
    humidity := p.humidity, speed := p.speed, altitude := p.altitude,
    locLat := jsOr p.latitude p.locLat,
    locLng := jsOr p.longitude p.locLng,
    lat := jsOr (jsOr p.lat p.latitude) p.locLat,
    lng := jsOr (jsOr p.lng p.longitude) p.locLng,
    status := normalizeStatus p.status }

/-- The `pre('save')` middleware of `telemetryDataSchema`: when both
`location.latitude` and `location.longitude` are truthy they overwrite
`lat`/`lng`. -/
def preSave (r : TelemetryRec) : TelemetryRec :=
  if truthy r.locLat && truthy r.locLng then
    { r with lat := r.locLat, lng := r.locLng }
  else r

/-- Look up a drone by id (`Drone.findOne({ droneId })`). -/
def findDrone (reg : List DroneRec) (id : String) : Option DroneRec :=
  reg.find? (fun d => d.droneId == id)

/-- The registry update applied by `_processTelemetryData` when the drone
already exists: refresh `lastSeen`, merge last-known metrics/position, set the
normalized status and recompute the online flag. -/
def updateFromTelemetry (now : ℤ) (p : RawPayload) (d : DroneRec) : DroneRec :=
  updateOnlineStatus now
    { d with lastSeen := now, status := normalizeStatus p.status,
             battery := p.battery }

/-- Embedding of `MqttService._processTelemetryData`: always persist the
normalized reading to the telemetry store; then update the registry entry if
— and only if — one already exists (`findOne` followed by a guarded save; no
entry is created for an unseen id). -/
def processTelemetryData (now : ℤ) (reg : List DroneRec)
    (store : List TelemetryRec) (droneId : String) (p : RawPayload) :
    List DroneRec × List TelemetryRec :=
  let store' := store ++ [preSave (mkTelemetryRecord now droneId p)]
  match findDrone reg droneId with
  | some _ =>
    (reg.map (fun d => if d.droneId == droneId then updateFromTelemetry now p d else d),
     store')
  | none => (reg, store')

/-- Embedding of `MqttService._processDroneStatus`: create the registry entry
when the id is unseen (with `isOnline: true` and `lastSeen: now`), otherwise
mutate the existing entry. -/
def processDroneStatus (now : ℤ) (reg : List DroneRec) (droneId : String)
    (p : RawPayload) : List DroneRec :=
  match findDrone reg droneId with
  | none =>
    reg ++ [{ droneId := droneId,
              name := p.name.getD ("Drone " ++ droneId),
              status := normalizeStatus p.status,
              isOnline := true, lastSeen := now, battery := none }]
  | some _ =>
    reg.map (fun d =>
      if d.droneId == droneId then
        updateOnlineStatus now
          { d with status := normalizeStatus p.status, lastSeen := now,
                   name := p.name.getD d.name }
      else d)

/-- An inbound reading payload used in the concrete counterexamples. -/
def samplePayload : RawPayload :=
  { battery := some 97, latitude := some (-5/4), longitude := some (147/4),
    status := some "in_flight" }

/-- C6 counterexample: a reading on the data topic for the unseen id "A1"
against an empty registry persists the reading but creates NO registry entry
— `_processTelemetryData` only updates drones that already exist, so the
claim that a first inbound reading creates the entry is false. -/
theorem processTelemetryData_no_create :
    findDrone (processTelemetryData 1000 [] [] "A1" samplePayload).1 "A1" = none ∧
    (processTelemetryData 1000 [] [] "A1" samplePayload).2.length = 1 := by
  exact ⟨rfl, rfl⟩

/-- C6 amended: a registry entry for an unseen id is created only by a status
message (`_processDroneStatus`); a reading (data topic) always persists the
normalized reading and mutates an existing entry, but never creates one for
an unseen id; neither operation ever deletes an entry (the multiset of
registry ids only grows). -/
theorem registry_lifecycle (now : ℤ) (reg : List DroneRec)
    (store : List TelemetryRec) (id : String) (p : RawPayload) :
    (findDrone reg id = none →
      (processDroneStatus now reg id p).map DroneRec.droneId
        = reg.map DroneRec.droneId ++ [id]) ∧
    (findDrone reg id ≠ none →
      (processDroneStatus now reg id p).map DroneRec.droneId
        = reg.map DroneRec.droneId) ∧
    ((processTelemetryData now reg store id p).1.map DroneRec.droneId
      = reg.map DroneRec.droneId) ∧
    ((processTelemetryData now reg store id p).2
      = store ++ [preSave (mkTelemetryRecord now id p)]) := by
  refine ⟨?_, ?_, ?_, ?_⟩
  · intro h
    simp [processDroneStatus, h]
  · intro h
    rcases Option.ne_none_iff_exists.mp h with ⟨d, hd⟩
    simp only [processDroneStatus, ← hd, List.map_map]
    refine List.map_congr_left ?_
    intro d' _
    simp only [updateOnlineStatus, Function.comp_apply]
    split <;> rfl
  · cases hfind : findDrone reg id with
    | none => simp [processTelemetryData, hfind]
    | some d =>
      simp only [processTelemetryData, hfind, List.map_map]
      refine List.map_congr_left ?_
      intro d' _
      simp only [updateFromTelemetry, updateOnlineStatus, Function.comp_apply]
      split <;> rfl
  · cases hfind : findDrone reg id <;> simp [processTelemetryData, hfind]

theorem registry_lifecycle_witness :
    findDrone [] "A1" = none ∧
    (processDroneStatus 1000 [] "A1" samplePayload).map DroneRec.droneId
      = [] ++ ["A1"] ∧
    findDrone [staleDrone] "A1" ≠ none ∧
    (processDroneStatus 1000 [staleDrone] "A1" samplePayload).map
      DroneRec.droneId = ["A1"] :=
  ⟨by decide,
   (registry_lifecycle 1000 [] [] "A1" samplePayload).1 (by decide),
   by decide,
   (registry_lifecycle 1000 [staleDrone] [] "A1" samplePayload).2.1
     (by decide)⟩

/-! ## Canonical reading shape and the fan-out query handlers
(WebSocketService.handleSubscribeTelemetry / handleGetDroneHistory) -/

/-- The canonical reading JSON as delivered to consumers:
`{ droneId, timestamp, battery, temperature, humidity, speed, altitude,
lat, lng, status }`. -/
structure CanonRec where
  droneId : String
  timestamp : ℤ
  battery : Option ℚ := none
  temperature : Option ℚ := none
  humidity : Option ℚ := none
  speed : Option ℚ := none
  altitude : Option ℚ := none
  lat : ℚ
  lng : ℚ
  status : String
  deriving Repr, DecidableEq

/-- The transform applied to every stored reading before it is sent out
(`lat: data.lat || data.location?.latitude || 0`, identically in
`handleSubscribeTelemetry`, `handleGetDroneHistory`, `getTelemetryData` and
`toFrontendFormat`). -/
def toCanon (r : TelemetryRec) : CanonRec :=
  { droneId := r.droneId, timestamp := r.timestamp,
    battery := r.battery, temperature := r.temperature,
    humidity := r.humidity, speed := r.speed, altitude := r.altitude,
    lat := (jsOr (jsOr r.lat r.locLat) (some 0)).getD 0,
    lng := (jsOr (jsOr r.lng r.locLng) (some 0)).getD 0,
    status := r.status }

/-- Newest-first order on stored readings (MongoDB
`.sort({ timestamp: -1 })`). -/
def newestFirst (a b : TelemetryRec) : Prop := b.timestamp ≤ a.timestamp

instance : DecidableRel newestFirst :=
  fun a b => inferInstanceAs (Decidable (b.timestamp ≤ a.timestamp))

instance : IsTotal TelemetryRec newestFirst :=
  ⟨fun a b => le_total b.timestamp a.timestamp⟩

instance : IsTrans TelemetryRec newestFirst :=
  ⟨fun _ _ _ h1 h2 => le_trans h2 h1⟩

/-- The filter of `handleSubscribeTelemetry`: restrict to one drone id when a
truthy id other than "all" was requested (`droneId && droneId !== 'all'`). -/
def filterByDrone (store : List TelemetryRec) (droneId : Option String) :
    List TelemetryRec :=
  match droneId with
  | some id =>
    if id ≠ "" ∧ id ≠ "all" then store.filter (fun r => r.droneId == id)
    else store
  | none => store

/-- Embedding of `WebSocketService.handleSubscribeTelemetry`: filter, sort
newest-first, limit to 100 and apply the canonical transform. -/
def handleSubscribeTelemetry (store : List TelemetryRec)
    (droneId : Option String) : List CanonRec :=
  (((filterByDrone store droneId).insertionSort newestFirst).take 100).map toCanon

/-- The time-range token translation of `handleGetDroneHistory` (default one
hour). -/
def timeRangeMs : String → ℤ
  | "10m" => 10 * 60 * 1000
  | "1h" => 60 * 60 * 1000
  | "6h" => 6 * 60 * 60 * 1000
  | "24h" => 24 * 60 * 60 * 1000
  | "7d" => 7 * 24 * 60 * 60 * 1000
  | _ => 60 * 60 * 1000

/-- Embedding of `WebSocketService.handleGetDroneHistory`: filter by drone id
and cutoff timestamp, sort newest-first, limit to 500 and apply the canonical
transform. -/
def handleGetDroneHistory (now : ℤ) (store : List TelemetryRec)
    (droneId timeRange : String) : List CanonRec :=
  let since := now - timeRangeMs timeRange
  (((store.filter
      (fun r => r.droneId == droneId && decide (since ≤ r.timestamp))).insertionSort
        newestFirst).take 500).map toCanon

theorem toCanon_timestamp (r : TelemetryRec) :
    (toCanon r).timestamp = r.timestamp := rfl

/-- C10: a subscribe-to-telemetry response contains at most 100 readings and
a get-history response at most 500, regardless of how many readings match,
and both are sorted newest-first by timestamp. -/
theorem query_limits_and_order (store : List TelemetryRec)
    (dq : Option String) (now : ℤ) (id tr : String) :
    (handleSubscribeTelemetry store dq).length ≤ 100 ∧
    List.Pairwise (fun a b : CanonRec => b.timestamp ≤ a.timestamp)
      (handleSubscribeTelemetry store dq) ∧
    (handleGetDroneHistory now store id tr).length ≤ 500 ∧
    List.Pairwise (fun a b : CanonRec => b.timestamp ≤ a.timestamp)
      (handleGetDroneHistory now store id tr) := by
  have hsorted :
      ∀ l : List TelemetryRec, ∀ n : ℕ,
        List.Pairwise (fun a b : CanonRec => b.timestamp ≤ a.timestamp)
          (((l.insertionSort newestFirst).take n).map toCanon) := by
    intro l n
    refine List.Pairwise.map toCanon (fun a b h => h) ?_
    exact (List.sorted_insertionSort newestFirst l).sublist
      (List.take_sublist _ _)
  have hlen : ∀ l : List TelemetryRec, ∀ n : ℕ,
      (((l.insertionSort newestFirst).take n).map toCanon).length ≤ n := by
    intro l n
    simp [List.length_take]
  exact ⟨hlen _ _, hsorted _ _, hlen _ _, hsorted _ _⟩

/-- C7: a reading submitted with flat `latitude`/`longitude` and one
submitted with the nested `location.latitude`/`location.longitude` shape
normalize — through ingestion, the save middleware and the canonical output
transform — to the identical canonical `{lat, lng}` pair (namely the
submitted coordinates); a payload with neither shape yields a canonical
position of `(0, 0)`; and the write is never blocked: ingestion persists
exactly one record for every payload. -/
theorem coordinate_normalization (now : ℤ) (reg : List DroneRec)
    (store : List TelemetryRec) (id : String) (p : RawPayload) (x y : ℚ) :
    (toCanon (preSave (mkTelemetryRecord now id
        { p with lat := none, lng := none, latitude := some x,
                 longitude := some y, locLat := none, locLng := none }))
      = toCanon (preSave (mkTelemetryRecord now id
        { p with lat := none, lng := none, latitude := none,
                 longitude := none, locLat := some x, locLng := some y }))) ∧
    ((toCanon (preSave (mkTelemetryRecord now id
        { p with lat := none, lng := none, latitude := some x,
                 longitude := some y, locLat := none, locLng := none }))).lat
      = x) ∧
    ((toCanon (preSave (mkTelemetryRecord now id
        { p with lat := none, lng := none, latitude := none,
                 longitude := none, locLat := none, locLng := none }))).lat
      = 0 ∧
     (toCanon (preSave (mkTelemetryRecord now id
        { p with lat := none, lng := none, latitude := none,
                 longitude := none, locLat := none, locLng := none }))).lng
      = 0) ∧
    ((processTelemetryData now reg store id p).2.length
      = store.length + 1) := by
  refine ⟨?_, ?_, ?_, ?_⟩
  · rcases eq_or_ne x 0 with hx | hx <;> rcases eq_or_ne y 0 with hy | hy <;>
      simp [toCanon, preSave, mkTelemetryRecord, jsOr, truthy, hx, hy]
  · rcases eq_or_ne x 0 with hx | hx <;> rcases eq_or_ne y 0 with hy | hy <;>
      simp [toCanon, preSave, mkTelemetryRecord, jsOr, truthy, hx, hy]
  · simp [toCanon, preSave, mkTelemetryRecord, jsOr, truthy]
  · cases hfind : findDrone reg id <;> simp [processTelemetryData, hfind]

/-! ## Observer session state and the pull read path
(src/hooks/useRealTimeTelemetry.ts) -/

/-- The three acquisition tiers of the hook
(`dataSource: 'websocket' | 'polling' | 'fallback'`). -/
inductive Source where
  | websocket
  | polling
  | fallback
  deriving Repr, DecidableEq

/-- The consumer-visible `RealTimeTelemetryState` of `useRealTimeTelemetry`. -/
structure HookState where
  drones : List FrontendDrone
  currentTelemetry : Option CanonRec
  historicalData : List CanonRec
  isConnected : Bool
  dataSource : Source
  lastUpdate : Option ℤ
  error : Option String
  deriving Repr, DecidableEq

/-- The result of the awaited pull query inside `fetchTelemetryData`: either
the service returned a list of logs, or it threw; in the latter case `sim`
holds the auto-simulator snapshot when the simulator has been initialized
(`autoSimulatorRef.current`), and `msg` the human-readable error message. -/
inductive FetchOutcome where
  | ok (logs : List CanonRec)
  | failed (msg : String) (sim : Option (List CanonRec))
  deriving Repr, DecidableEq

/-- Embedding of `fetchTelemetryData`.  The JavaScript function catches every
error of the pull query, so it is total: it always returns the next state and
never propagates an exception to its caller. -/
def fetchTelemetryData (now : ℤ) (backendAvailable : Bool) (droneId : String)
    (outcome : FetchOutcome) (s : HookState) : HookState :=
  match outcome with
  | .ok logs =>
    if logs.length > 0 then
      { s with currentTelemetry := logs.head?,
               historicalData := logs,
               lastUpdate := some now,
               dataSource := if backendAvailable then .polling else .fallback }
    else s
  | .failed msg sim =>
    let droneTelemetry := (sim.getD []).filter (fun t => t.droneId == droneId)
    if droneTelemetry.length > 0 then
      { s with currentTelemetry := droneTelemetry.head?,
               historicalData := droneTelemetry,
               lastUpdate := some now,
               dataSource := .fallback,
               error := none }
    else
      { s with error := some msg }

/-- C4: when the pull telemetry query throws and no fallback data is
available for the selected drone, the read path (a total function — the
thrown error is caught, never re-raised to the caller) only sets the
human-readable `error` field; `currentTelemetry`, `historicalData` and the
`drones` list keep their last good values. -/
theorem fetchTelemetryData_failure_keeps_state (now : ℤ) (ba : Bool)
    (droneId msg : String) (sim : Option (List CanonRec)) (s : HookState)
    (hempty : (sim.getD []).filter (fun t => t.droneId == droneId) = []) :
    (fetchTelemetryData now ba droneId (.failed msg sim) s).error = some msg ∧
    (fetchTelemetryData now ba droneId (.failed msg sim) s).currentTelemetry
      = s.currentTelemetry ∧
    (fetchTelemetryData now ba droneId (.failed msg sim) s).historicalData
      = s.historicalData ∧
    (fetchTelemetryData now ba droneId (.failed msg sim) s).drones
      = s.drones := by
  simp [fetchTelemetryData, hempty]

/-- A concrete hook state holding earlier good data. -/
def sampleHookState : HookState :=
  { drones := [toFrontendFormat staleDrone],
    currentTelemetry := some (toCanon (mkTelemetryRecord 900 "A1" samplePayload)),
    historicalData := [toCanon (mkTelemetryRecord 900 "A1" samplePayload)],
    isConnected := false, dataSource := .polling,
    lastUpdate := some 900, error := none }

theorem fetchTelemetryData_failure_keeps_state_witness :
    (fetchTelemetryData 1000 true "A1" (.failed "Network Error" none)
        sampleHookState).error = some "Network Error" ∧
    (fetchTelemetryData 1000 true "A1" (.failed "Network Error" none)
        sampleHookState).currentTelemetry = sampleHookState.currentTelemetry :=
  ⟨(fetchTelemetryData_failure_keeps_state 1000 true "A1" "Network Error"
      none sampleHookState (by decide)).1,
   (fetchTelemetryData_failure_keeps_state 1000 true "A1" "Network Error"
      none sampleHookState (by decide)).2.1⟩

/-! ## Source-selection state machine and poll-timer lifecycle
(useRealTimeTelemetry: the `state.dataSource` effect, startPolling,
stopPolling, and the asynchronous poll request)

The single-threaded JavaScript event loop is modelled as a step relation over
a small event alphabet.  `pollTimer` models `pollingTimerRef.current`;
`pendingFetch` models an in-flight `fetchTelemetryData` promise started by
`poll()` (`clearInterval` stops future ticks but does not abort an in-flight
request).  React runs the cleanup of the `[state.dataSource]` effect (which
is `stopPolling`) before re-running the effect body whenever the value
changes. -/

structure SessionState where
  dataSource : Source
  pollTimer : Bool
  pendingFetch : Bool
  deriving Repr, DecidableEq

/-- Initial hook state: `dataSource: 'fallback'`, no timer, no request. -/
def initSession : SessionState :=
  { dataSource := .fallback, pollTimer := false, pendingFetch := false }

/-- Embedding of `stopPolling`: clear the interval timer (the in-flight
request, if any, is untouched). -/
def stopPolling (s : SessionState) : SessionState := { s with pollTimer := false }

/-- Embedding of `startPolling`: no-op when polling is disabled or a timer
already exists; otherwise run the initial `poll()` (starting a request) and
install the interval timer. -/
def startPolling (enablePolling : Bool) (s : SessionState) : SessionState :=
  if !enablePolling || s.pollTimer then s
  else { s with pendingFetch := true, pollTimer := true }

/-- The body of the `[state.dataSource]` effect: start polling in the polling
tier, stop it otherwise. -/
def dataSourceEffect (enablePolling : Bool) (s : SessionState) : SessionState :=
  if s.dataSource = .polling then startPolling enablePolling s else stopPolling s

/-- A change of `state.dataSource` under the React effect contract: if the
value actually changes, first the previous cleanup (`stopPolling`) runs, then
the effect body. -/
def applyDataSourceChange (enablePolling : Bool) (s : SessionState)
    (d : Source) : SessionState :=
  if d = s.dataSource then s
  else dataSourceEffect enablePolling (stopPolling { s with dataSource := d })

/-- Events of the observer-session event loop: a connectivity-driven source
switch, an interval tick of the poll timer (starting a pull request), and the
completion of an in-flight pull request (whose success handler sets
`dataSource` to `'polling'` when the backend is available, else
`'fallback'`). -/
inductive SessionEvent where
  | switchTo (d : Source)
  | pollTick
  | fetchDone
  deriving Repr, DecidableEq

def sessionStep (enablePolling backendAvailable : Bool) (s : SessionState) :
    SessionEvent → SessionState
  | .switchTo d => applyDataSourceChange enablePolling s d
  | .pollTick => if s.pollTimer then { s with pendingFetch := true } else s
  | .fetchDone =>
    if s.pendingFetch then
      applyDataSourceChange enablePolling { s with pendingFetch := false }
        (if backendAvailable then .polling else .fallback)
    else s

/-- Run the session event loop from the initial state. -/
def runSession (enablePolling backendAvailable : Bool)
    (events : List SessionEvent) : SessionState :=
  events.foldl (sessionStep enablePolling backendAvailable) initSession

/-- C2 counterexample: switch to the pull tier (which starts the initial poll
request) and then back to push.  The poll interval timer is cancelled, but
the in-flight pull request is NOT: it is still pending while the session is
on the push source, and its completion re-activates the pull tier without
any switch event — so not every source transition cancels the previously
active tier in its entirety (pending timer AND request) before the new tier
starts. -/
theorem switch_leaves_pull_request_pending :
    (runSession true true
        [.switchTo .polling, .switchTo .websocket]).dataSource
      = .websocket ∧
    (runSession true true
        [.switchTo .polling, .switchTo .websocket]).pendingFetch = true ∧
    (runSession true true
        [.switchTo .polling, .switchTo .websocket, .fetchDone]).dataSource
      = .polling := by
  decide

/-- The session invariant behind the amended C2: a poll interval timer exists
only while the pull tier is the active source (and polling is enabled). -/
def timerInv (enablePolling : Bool) (s : SessionState) : Prop :=
  s.pollTimer = true → (s.dataSource = .polling ∧ enablePolling = true)

theorem timerInv_step (ep ba : Bool) (s : SessionState) (e : SessionEvent)
    (h : timerInv ep s) : timerInv ep (sessionStep ep ba s e) := by
  cases e with
  | switchTo d =>
    simp only [sessionStep, applyDataSourceChange, dataSourceEffect,
      startPolling, stopPolling, timerInv] at *
    split_ifs <;> simp_all
  | pollTick =>
    simp only [sessionStep, timerInv] at *
    split_ifs <;> simp_all
  | fetchDone =>
    simp only [sessionStep, applyDataSourceChange, dataSourceEffect,
      startPolling, stopPolling, timerInv] at *
    split_ifs <;> simp_all

theorem timerInv_run (ep ba : Bool) (events : List SessionEvent) :
    timerInv ep (runSession ep ba events) := by
  suffices h : ∀ s, timerInv ep s →
      timerInv ep (events.foldl (sessionStep ep ba) s) by
    exact h initSession (by simp [timerInv, initSession])
  induction events with
  | nil => intro s hs; exact hs
  | cons e rest ih =>
    intro s hs
    exact ih _ (timerInv_step ep ba s e hs)

/-- C2 amended: in every reachable session state exactly one of the three
acquisition tiers is the active source, and switching the source away from
the pull tier cancels the pending poll interval timer — a poll timer from a
prior polling episode never exists (so never fires) once the session has
returned to the push source.  An in-flight pull request, however, is not
cancelled by the switch (see the counterexample). -/
theorem one_active_source_and_timer_cancelled (ep ba : Bool)
    (events : List SessionEvent) :
    (∃! t : Source, (runSession ep ba events).dataSource = t) ∧
    ((runSession ep ba events).pollTimer = true →
      (runSession ep ba events).dataSource = .polling) := by
  refine ⟨⟨(runSession ep ba events).dataSource, rfl, fun t ht => ht.symm⟩, ?_⟩
  intro ht
  exact ((timerInv_run ep ba events) ht).1

theorem one_active_source_and_timer_cancelled_witness :
    (runSession true true [.switchTo .polling]).dataSource = .polling :=
  (one_active_source_and_timer_cancelled true true [.switchTo .polling]).2
    (by decide)

/-! ## Reconnect backoff (WebSocketClient.scheduleReconnect; the
scheduleReconnect of src/services/mqttClient.ts has the identical body) -/

/-- The reconnect bookkeeping of the push client: `reconnectAttempts` and
whether `reconnectTimer` is set. -/
structure ReconnectState where
  attempts : ℕ
  timerPending : Bool
  deriving Repr, DecidableEq

/-- `maxReconnectAttempts` in the source. -/
def maxReconnectAttempts : ℕ := 5

/-- Embedding of `scheduleReconnect`: bail out when a timer is already
pending or the retry budget is exhausted; otherwise increment the attempt
counter and schedule a timer with delay
`Math.min(1000 * Math.pow(2, reconnectAttempts), 30000)` (the counter having
already been incremented).  The second component is the scheduled delay in
milliseconds, `none` when nothing was scheduled. -/
def scheduleReconnect (s : ReconnectState) : ReconnectState × Option ℕ :=
  if s.timerPending || decide (s.attempts ≥ maxReconnectAttempts) then (s, none)
  else
    ({ attempts := s.attempts + 1, timerPending := true },
     some (min (1000 * 2 ^ (s.attempts + 1)) 30000))

/-- A sequence of `k` consecutive connection failures: each failure calls
`scheduleReconnect`, and when the scheduled timer fires it clears
`reconnectTimer` (the callback sets it to null) before the next failure.
Returns the final state and the list of scheduled delays. -/
def runFailures : ℕ → ReconnectState × List ℕ
  | 0 => (⟨0, false⟩, [])
  | k + 1 =>
    let r := runFailures k
    let s := scheduleReconnect r.1
    ({ s.1 with timerPending := false }, r.2 ++ s.2.toList)

/-- C8 counterexample: the first scheduled reconnect delay is 2000 ms — the
counter is incremented before the exponent is taken — not the 1000 ms that a
backoff starting at a base of 1 second would give. -/
theorem firstReconnectDelay_is_2000 :
    (runFailures 1).2 = [2000] ∧
    (runFailures 1).2 ≠ [min (1000 * 2 ^ (0 : ℕ)) 30000] := by
  decide

/-- C8 amended: the nth scheduled reconnect delay (n = 1, 2, ...) is
`min(1000 * 2^n, 30000)` ms — a doubling backoff that starts at 2 seconds and
is capped at 30 seconds — and no reconnect attempt is scheduled once the
bounded retry count of 5 attempts has been reached: `k` consecutive failures
schedule exactly `min k 5` timers. -/
theorem reconnectBackoff (k : ℕ) :
    runFailures k
      = (⟨min k 5, false⟩,
         (List.range (min k 5)).map (fun i => min (1000 * 2 ^ (i + 1)) 30000)) ∧
    ∀ d ∈ (runFailures k).2, d ≤ 30000 := by
  have main : runFailures k
      = (⟨min k 5, false⟩,
         (List.range (min k 5)).map (fun i => min (1000 * 2 ^ (i + 1)) 30000)) := by
    induction k with
    | zero => rfl
    | succ n ih =>
      rcases lt_or_ge n 5 with hn | hn
      · have h1 : min n 5 = n := by omega
        have h2 : min (n + 1) 5 = n + 1 := by omega
        simp only [runFailures, ih, h1, h2, scheduleReconnect,
          maxReconnectAttempts]
        have h3 : ¬ (n ≥ 5) := by omega
        simp [h3, List.range_succ]
      · have h1 : min n 5 = 5 := by omega
        have h2 : min (n + 1) 5 = 5 := by omega
        simp only [runFailures, ih, h1, h2, scheduleReconnect,
          maxReconnectAttempts]
        have h3 : (5 : ℕ) ≥ 5 := le_refl 5
        simp [h3]
  refine ⟨main, ?_⟩
  intro d hd
  rw [main] at hd
  simp only [List.mem_map, List.mem_range] at hd
  rcases hd with ⟨i, _, rfl⟩
  exact min_le_right _ _

theorem reconnectBackoff_witness :
    30000 ∈ (runFailures 7).2 ∧ (30000 : ℕ) ≤ 30000 :=
  ⟨by rw [(reconnectBackoff 7).1]; decide,
   (reconnectBackoff 7).2 30000 (by rw [(reconnectBackoff 7).1]; decide)⟩

/-! ## Synthetic generator (src/lib/auto-simulator.ts,
AutoDroneSimulator.updateDroneState) -/

/-- The mission phases of a simulated agent. -/
inductive Phase where
  | idle
  | preparing
  | flying
  | delivering
  | returning
  deriving Repr, DecidableEq

/-- A simulated drone profile (the `DroneProfile` interface). -/
structure DroneProfile where
  id : String
  baseLocation : ℚ × ℚ
  batteryDecayRate : ℚ
  maxSpeed : ℚ
  currentBattery : ℚ
  currentLocation : ℚ × ℚ
  missionPhase : Phase
  destination : Option (ℚ × ℚ)
  deriving Repr, DecidableEq

/-- The fixed delivery destinations of the simulator. -/
def destinations : List (ℚ × ℚ) :=
  [(-1.25, 36.7833), (-1.35, 36.9167), (-1.1667, 36.8),
   (-1.4, 36.95), (-1.2, 36.75)]

/-- The random draws consumed by one `updateDroneState` step, made explicit:
`startMission` is `Math.random() < 0.15`, `destIndex` the random destination
pick, `prepAdvance` `< 0.7`, `flyArrive` `< 0.1`, `deliverDone` `< 0.4`,
`returnArrive` `< 0.15`. -/
structure SimRand where
  startMission : Bool
  destIndex : ℕ
  prepAdvance : Bool
  flyArrive : Bool
  deliverDone : Bool
  returnArrive : Bool
  deriving Repr, DecidableEq

/-- Models `calculateDistance(p1, p2) < r` for a positive threshold `r`: the
source compares the Euclidean distance (a square root) with `r`; comparing
the squares is equivalent and keeps the embedding in `ℚ`. -/
def calculateDistanceLt (p1 p2 : ℚ × ℚ) (r : ℚ) : Bool :=
  decide ((p2.1 - p1.1) ^ 2 + (p2.2 - p1.2) ^ 2 < r ^ 2)

/-- Embedding of `AutoDroneSimulator.updateDroneState` WITHOUT the final
battery floor (the body of the `switch`).  The position update
`moveTowardsDestination` divides by a real-valued square root
(`totalDistance`); since it touches only `currentLocation` and nothing the
claims depend on, it is passed in as the function parameter `move`. -/
def updateDroneStateCore (move : DroneProfile → ℚ × ℚ → ℚ × ℚ)
    (isBusinessHours : Bool) (rnd : SimRand) (p : DroneProfile) :
    DroneProfile :=
  match p.missionPhase with
  | .idle =>
    if isBusinessHours && rnd.startMission && decide (p.currentBattery > 40) then
      { p with missionPhase := .preparing,
               destination := some (destinations.getD
                 (rnd.destIndex % destinations.length) (0, 0)) }
    else
      { p with currentBattery := min 100 (p.currentBattery + 0.5) }
  | .preparing =>
    if rnd.prepAdvance then { p with missionPhase := .flying } else p
  | .flying =>
    match p.destination with
    | some dest =>
      let moved := { p with
        currentLocation := move p dest,
        currentBattery := p.currentBattery - p.batteryDecayRate }
      if calculateDistanceLt moved.currentLocation dest 0.005 || rnd.flyArrive then
        { moved with missionPhase := .delivering }
      else moved
    | none => p
  | .delivering =>
    let q := { p with currentBattery := p.currentBattery - 0.2 }
    if rnd.deliverDone then { q with missionPhase := .returning } else q
  | .returning =>
    let moved := { p with
      currentLocation := move p p.baseLocation,
      currentBattery := p.currentBattery - p.batteryDecayRate * 0.8 }
    if calculateDistanceLt moved.currentLocation p.baseLocation 0.002
        || rnd.returnArrive then
      { moved with missionPhase := .idle,
                   currentLocation := p.baseLocation, destination := none }
    else moved

/-- Embedding of `AutoDroneSimulator.updateDroneState` including the final
`profile.currentBattery = Math.max(15, profile.currentBattery)` floor. -/
def updateDroneState (move : DroneProfile → ℚ × ℚ → ℚ × ℚ)
    (isBusinessHours : Bool) (rnd : SimRand) (p : DroneProfile) :
    DroneProfile :=
  let q := updateDroneStateCore move isBusinessHours rnd p
  { q with currentBattery := max 15 q.currentBattery }

/-- The destination bookkeeping invariant of the simulator: away from `idle`
a destination is always set (it is chosen when the mission starts and cleared
only on return to `idle`). -/
def destInv (p : DroneProfile) : Prop :=
  p.missionPhase ≠ .idle → p.destination.isSome

theorem battery_clamp_bounds (x : ℚ) (hx : x ≤ 100) :
    15 ≤ max 15 x ∧ max 15 x ≤ 100 :=
  ⟨le_max_left _ _, max_le (by norm_num) hx⟩

/-- C9: one simulator step keeps the battery inside [15, 100] (given a
nonnegative decay rate and a battery not above 100): the final floor clamps
at 15 (the battery never reaches zero) and nothing pushes it above 100; the
pre-clamp battery strictly decreases while `flying` (toward a destination)
or `returning` for a positive decay rate; while `idle` without starting a
mission the battery recovers by 0.5 up to the cap of 100; and the
destination invariant needed for the flying case is preserved by every
step. -/
theorem simulator_battery_invariant (move : DroneProfile → ℚ × ℚ → ℚ × ℚ)
    (bh : Bool) (rnd : SimRand) (p : DroneProfile)
    (hdecay : 0 ≤ p.batteryDecayRate) (hb : p.currentBattery ≤ 100) :
    (15 ≤ (updateDroneState move bh rnd p).currentBattery ∧
      (updateDroneState move bh rnd p).currentBattery ≤ 100) ∧
    (p.missionPhase = .flying → p.destination.isSome →
      0 < p.batteryDecayRate →
      (updateDroneStateCore move bh rnd p).currentBattery < p.currentBattery) ∧
    (p.missionPhase = .returning → 0 < p.batteryDecayRate →
      (updateDroneStateCore move bh rnd p).currentBattery < p.currentBattery) ∧
    (p.missionPhase = .idle →
      (bh && rnd.startMission && decide (p.currentBattery > 40)) = false →
      (updateDroneState move bh rnd p).currentBattery
        = max 15 (min 100 (p.currentBattery + 0.5))) ∧
    (destInv p → destInv (updateDroneState move bh rnd p)) := by
  obtain ⟨pid, pbase, pdecay, pms, pbatt, ploc, pphase, pdest⟩ := p
  simp only at hdecay hb
  have hcore : (updateDroneStateCore move bh rnd
      ⟨pid, pbase, pdecay, pms, pbatt, ploc, pphase, pdest⟩).currentBattery
        ≤ 100 := by
    cases pphase <;>
      simp only [updateDroneStateCore]
    · split_ifs <;> simp_all [min_le_left]
    · split_ifs <;> simp_all
    · cases pdest with
      | none => simpa using hb
      | some dest =>
        dsimp only
        split_ifs <;> simp_all <;> linarith
    · split_ifs <;> simp_all <;> linarith
    · have h08 : 0 ≤ pdecay * 0.8 := by positivity
      split_ifs <;> simp_all <;> linarith
  refine ⟨?_, ?_, ?_, ?_, ?_⟩
  · exact battery_clamp_bounds _ hcore
  · intro hph hdest hpos
    simp only at hph
    subst hph
    rcases Option.isSome_iff_exists.mp hdest with ⟨dest, hd⟩
    simp only at hd
    subst hd
    simp only [updateDroneStateCore]
    split_ifs <;> simp only <;> linarith
  · intro hph hpos
    simp only at hph
    subst hph
    have h08 : 0 < pdecay * 0.8 := by positivity
    simp only [updateDroneStateCore]
    split_ifs <;> simp only <;> linarith
  · intro hph hcond
    simp only at hph
    subst hph
    simp only [updateDroneState, updateDroneStateCore, hcond, Bool.false_eq_true,
      if_false]
  · intro hinv
    cases pphase <;>
      simp only [destInv, updateDroneState, updateDroneStateCore] at hinv ⊢
    · split_ifs <;> simp_all
    · split_ifs <;> simp_all
    · cases pdest with
      | none => simp_all
      | some dest =>
        dsimp only
        split_ifs <;> simp_all
    · split_ifs <;> simp_all
    · split_ifs <;> simp_all

/-- A simulated drone mid-flight (profile "A1" of `initializeProfiles`, with
a destination chosen and the battery at 50%). -/
def sampleProfile : DroneProfile :=
  { id := "A1", baseLocation := (-1.2921, 36.8219), batteryDecayRate := 0.8,
    maxSpeed := 65, currentBattery := 50,
    currentLocation := (-1.2921, 36.8219),
    missionPhase := .flying, destination := some (-1.25, 36.7833) }

/-- All random draws come out false (no phase transition chance fires). -/
def sampleRand : SimRand :=
  { startMission := false, destIndex := 0, prepAdvance := false,
    flyArrive := false, deliverDone := false, returnArrive := false }

theorem simulator_battery_invariant_witness :
    (15 ≤ (updateDroneState (fun _ d => d) true sampleRand
        sampleProfile).currentBattery ∧
      (updateDroneState (fun _ d => d) true sampleRand
        sampleProfile).currentBattery ≤ 100) ∧
    (updateDroneStateCore (fun _ d => d) true sampleRand
        sampleProfile).currentBattery < sampleProfile.currentBattery :=
  ⟨(simulator_battery_invariant (fun _ d => d) true sampleRand sampleProfile
      (by norm_num [sampleProfile]) (by norm_num [sampleProfile])).1,
   (simulator_battery_invariant (fun _ d => d) true sampleRand sampleProfile
      (by norm_num [sampleProfile]) (by norm_num [sampleProfile])).2.1
     rfl rfl (by norm_num [sampleProfile])⟩

end Luna
